import Mathlib

/-!
Shallow embedding of the ESP32 LED/alarm/timer firmware (src/src/main.cpp)
and verification of the specification's claims about it.

Arduino `String` values are modelled by Lean `String` (a structure holding a
`List Char`); the character-level helpers work on `List Char`.  The
`Preferences` key `alarm_csv` is modelled as an `Option String` (`none` = key
absent).  HTTP handlers are pure functions from their inputs and the device
state to the new device state plus the response they send.
-/

namespace KTC

abbrev Chars := List Char

/-- `maxAlarms` from main.cpp line 36. -/
def maxAlarms : Nat := 20

/-- The alarm-token check used by `handleSetAlarms` (main.cpp:310) and, after
trimming, by `loadAlarmsFromPrefs` (main.cpp:204):
`val.length() == 5 && val.charAt(2) == ':'`. -/
def validTok (t : Chars) : Bool :=
  t.length == 5 && t.get? 2 == some ':'

/-- `validTok` on a Lean `String`. -/
def validToken (s : String) : Bool := validTok s.data

/-- The whitespace class of `isspace`, used by Arduino `String::trim`. -/
def isSpaceC (c : Char) : Bool :=
  c == ' ' || c == '\t' || c == '\n' || c == '\x0b' || c == '\x0c' || c == '\r'

/-- Arduino `String::trim`: remove leading and trailing whitespace
(main.cpp:203 `token.trim()`). -/
def trimTok (t : Chars) : Chars :=
  ((t.dropWhile isSpaceC).reverse.dropWhile isSpaceC).reverse

/-- Comma-join as done by `saveAlarmsToPrefs` (main.cpp:186-190):
a comma before every token except the first. -/
def joinChars : List Chars → Chars
  | [] => []
  | [t] => t
  | t :: u :: ts => t ++ ',' :: joinChars (u :: ts)

/-- The CSV string built by `saveAlarmsToPrefs` (main.cpp:184-192): the first
`maxAlarms` entries of the RAM list, comma-joined, in RAM order. -/
def saveCsvChars (alarms : List Chars) : Chars :=
  joinChars (alarms.take maxAlarms)

/-- `saveCsvChars` on Lean strings. -/
def saveCsv (alarms : List String) : String :=
  ⟨saveCsvChars (alarms.map String.data)⟩

/-- `saveAlarmsToPrefs` (main.cpp:184-192): unconditionally `putString`s the
CSV, so the stored value becomes `some csv` whatever it was before. -/
def saveAlarmsToPrefs (alarms : List String) (_prefs : Option String) : Option String :=
  some (saveCsv alarms)

/-- `name.startsWith(p)` on the character lists. -/
def startsWithChars : Chars → Chars → Bool
  | _, [] => true
  | [], _ :: _ => false
  | c :: s, p :: ps => c == p && startsWithChars s ps

/-- `name.startsWith("alarm")` of main.cpp:308. -/
def startsWithAlarm (n : String) : Bool :=
  startsWithChars n.data "alarm".data

/-- The parameter scan of `handleSetAlarms` (main.cpp:304-315): walk the
request parameters in order, keep values of parameters whose name starts with
`alarm` that pass `validToken`, and break once `maxAlarms` are collected. -/
def collectAlarms : List (String × String) → List String → List String
  | [], acc => acc
  | (n, v) :: rest, acc =>
    if startsWithAlarm n then
      if validToken v then
        if maxAlarms ≤ (acc ++ [v]).length then acc ++ [v]
        else collectAlarms rest (acc ++ [v])
      else collectAlarms rest acc
    else collectAlarms rest acc

/-- An HTTP response as produced by `server.send` (plus the `Location` header
when one was set). -/
structure HttpResponse where
  code : Nat
  contentType : String
  body : String
  location : Option String
  deriving Repr, DecidableEq

/-- The `302` + `Location: /` response every mutating handler sends. -/
def redirectHome : HttpResponse :=
  { code := 302, contentType := "text/plain", body := "", location := some "/" }

/-- The mutable device state owned by the loop (globals of main.cpp).
`prefsAlarmCsv` is the value stored under Preferences key `alarm_csv`
(`none` = key absent); `buzzerOn` is the output level written to
`buzzerPin` by `digitalWrite` / the tone generator being on. -/
structure DeviceState where
  led1 : Bool
  led2 : Bool
  timerRunning : Bool
  timerTargetMs : Nat
  alarms : List String
  prefsAlarmCsv : Option String
  lastCheckedMinute : Int
  buzzerOn : Bool
  deriving Repr, DecidableEq

/-- State right after `setup()`: LEDs low, timer stopped, buzzer low. -/
def initState : DeviceState :=
  { led1 := false, led2 := false, timerRunning := false, timerTargetMs := 0
    alarms := [], prefsAlarmCsv := none, lastCheckedMinute := -1, buzzerOn := false }

/-- `handleSetAlarms` (main.cpp:302-320): replace the RAM list with the
collected parameters, save to Preferences, redirect to `/`. -/
def handleSetAlarms (params : List (String × String)) (st : DeviceState) :
    DeviceState × HttpResponse :=
  let newAlarms := collectAlarms params []
  ({ st with alarms := newAlarms
             prefsAlarmCsv := saveAlarmsToPrefs newAlarms st.prefsAlarmCsv },
   redirectHome)

/-- `handleClearAlarms` (main.cpp:322-326): clear the RAM list, `prefs.remove`
the key, answer `200 OK`. -/
def handleClearAlarms (st : DeviceState) : DeviceState × HttpResponse :=
  ({ st with alarms := [], prefsAlarmCsv := none },
   { code := 200, contentType := "text/plain", body := "OK", location := none })

/-- `handleStopTimer` (main.cpp:353-357): only clears `timerRunning` and
redirects; nothing else in the state (in particular not the buzzer pin) is
touched. -/
def handleStopTimer (st : DeviceState) : DeviceState × HttpResponse :=
  ({ st with timerRunning := false }, redirectHome)

/-- Total seconds computed by `handleStartTimer` (main.cpp:330-338): missing
parameters read as 0, negative values clamped to 0 (`Int.toNat` clamps exactly
like the `if (x < 0) x = 0` lines). -/
def totalSeconds (hoursArg minutesArg secondsArg : Option Int) : Nat :=
  (hoursArg.getD 0).toNat * 3600 + (minutesArg.getD 0).toNat * 60 + (secondsArg.getD 0).toNat

/-- `handleStartTimer` (main.cpp:328-351).  The three arguments are the parsed
`toInt` values of the query parameters (`none` when the parameter is absent);
`nowMs` is `millis()` at the time of the request. -/
def handleStartTimer (hoursArg minutesArg secondsArg : Option Int) (nowMs : Nat)
    (st : DeviceState) : DeviceState × HttpResponse :=
  let total := totalSeconds hoursArg minutesArg secondsArg
  if total = 0 then
    ({ st with timerRunning := false }, redirectHome)
  else
    ({ st with timerRunning := true, timerTargetMs := nowMs + total * 1000 },
     redirectHome)

/-- The `(long)` cast at main.cpp:259 on the ESP32 (ILP32, `long` = 32-bit
signed): keep the low 32 bits of the unsigned value, reinterpreted as two's
complement. -/
def toInt32 (n : Nat) : Int :=
  if n % 4294967296 < 2147483648 then ((n % 4294967296 : Nat) : Int)
  else ((n % 4294967296 : Nat) : Int) - 4294967296

/-- The `remaining` string of `handleStatus` (main.cpp:257-262): `"0s"` when
the timer is stopped; otherwise `(long)(max(0, target - now))` — the cast
truncating the unsigned difference to signed 32 bits — divided by 1000 and
split with C's truncating division and remainder (`Int.tdiv` / `Int.tmod`),
rendered as `<H>h <M>m <S>s` (`String(long)` prints a sign when negative). -/
def remainingString (timerRunning : Bool) (timerTargetMs nowMs : Nat) : String :=
  if timerRunning then
    let msLeft : Int := toInt32 (if timerTargetMs > nowMs then timerTargetMs - nowMs else 0)
    let s : Int := Int.tdiv msLeft 1000
    toString (Int.tdiv s 3600) ++ "h " ++ toString (Int.tdiv (Int.tmod s 3600) 60) ++ "m "
      ++ toString (Int.tmod s 60) ++ "s"
  else "0s"

/-- The loop's timer-expiry check (main.cpp:435-439): returns the new state and
whether the buzzer was triggered by timer expiry in this iteration. -/
def timerExpiryCheck (st : DeviceState) (nowMs : Nat) : DeviceState × Bool :=
  if st.timerRunning ∧ st.timerTargetMs ≤ nowMs then
    ({ st with timerRunning := false, buzzerOn := true }, true)
  else (st, false)

/-- `csv.indexOf(',', start)` plus `csv.substring(start, comma)` of the load
loop (main.cpp:200-202), phrased on the remaining suffix: the characters up to
the first comma, and the characters after it (`none` when there is no comma,
i.e. `indexOf` returned `-1` and the token runs to the end). -/
def splitAtComma : Chars → Chars × Option Chars
  | [] => ([], none)
  | c :: cs =>
    if c = ',' then ([], some cs)
    else
      let p := splitAtComma cs
      (c :: p.1, p.2)

/-- `alarms.push_back(token)` guarded by the validity check
(main.cpp:204), applied to the trimmed token. -/
def pushValid (acc : List Chars) (tok : Chars) : List Chars :=
  if validTok (trimTok tok) then acc ++ [trimTok tok] else acc

/-- The parsing loop of `loadAlarmsFromPrefs` (main.cpp:198-207) on the suffix
of the CSV that starts at `start`: take the token before the next comma, trim
it, keep it when valid, stop after the last token or once `maxAlarms` tokens
are collected. -/
def loadTokens (s : Chars) (acc : List Chars) : List Chars :=
  match hsp : splitAtComma s with
  | (tok, none) => pushValid acc tok
  | (tok, some r) =>
    if maxAlarms ≤ (pushValid acc tok).length then pushValid acc tok
    else loadTokens r (pushValid acc tok)
termination_by s.length
decreasing_by
  rename_i hle
  clear hle
  induction s generalizing tok with
  | nil => simp [splitAtComma] at hsp
  | cons c cs ih =>
    by_cases hc : c = ','
    · simp only [splitAtComma, if_pos hc, Prod.mk.injEq, Option.some.injEq] at hsp
      rw [← hsp.2]
      simp
    · simp only [splitAtComma, if_neg hc, Prod.mk.injEq] at hsp
      have hcs : splitAtComma cs = ((splitAtComma cs).1, some r) := by
        rw [← hsp.2]
      have hlt : r.length < cs.length := ih _ hcs
      exact Nat.lt_trans hlt (by simp)

/-- `loadAlarmsFromPrefs` (main.cpp:194-208) on the stored CSV value: empty
string (also the `getString` default when the key is absent) gives the empty
list, otherwise the parsing loop runs from the start. -/
def loadAlarmsChars (csv : Chars) : List Chars :=
  if csv.length = 0 then [] else loadTokens csv []

/-- `loadAlarmsFromPrefs` on a stored `Option String`
(`prefs.getString(prefsKey, "")` yields `""` when the key is absent). -/
def loadAlarms (prefsVal : Option String) : List String :=
  (loadAlarmsChars (prefsVal.getD "").data).map fun t => ⟨t⟩

/-- `snprintf "%02d"` of `getCurrentHHMM` (main.cpp:246). -/
def pad2 (n : Nat) : String :=
  if n < 10 then "0" ++ toString n else toString n

/-- The `HH:MM` string `getCurrentHHMM` builds (main.cpp:242-248) for the
wall-clock instant `t`, measured in absolute minutes; the hour of day is
`t / 60 % 24` and the minute of hour `t % 60`. -/
def hhmmOf (t : Nat) : String :=
  pad2 (t / 60 % 24) ++ ":" ++ pad2 (t % 60)

/-- The string `getCurrentHHMM` returns for a clock read `r` (absolute minutes;
`none` when `getLocalTime` fails, in which case the empty string comes back,
main.cpp:244). -/
def currentHHMM (r : Option Nat) : String :=
  match r with
  | none => ""
  | some u => hhmmOf u

/-- The alarm-checking block of `loop()` (main.cpp:442-460).  `r1` is the
`getLocalTime` read at line 443 and `r2` the second, independent read inside
`getCurrentHHMM` at line 447; both are absolute-minute readings of the same
wall clock.  Returns the new `lastCheckedMinute` and whether the buzzer was
triggered by an alarm match. -/
def alarmCheck (alarms : List String) (last : Int) (r1 r2 : Option Nat) : Int × Bool :=
  match r1 with
  | none => (last, false)
  | some t =>
    let curMinute : Int := ((t % 60 : Nat) : Int)
    if curMinute = last then (last, false)
    else (curMinute, alarms.contains (currentHHMM r2))

/-- Number of alarm-triggered buzzer activations that the loop performs for
the absolute wall-clock minute `M`, over a run whose successive iterations see
the clock reads in `reads` (one `(r1, r2)` pair per iteration), starting from
`lastCheckedMinute = last`.  An activation is counted for `M` when the
triggering `getCurrentHHMM` read happened at minute `M`. -/
def triggersAt (alarms : List String) : List (Option Nat × Option Nat) → Int → Nat → Nat
  | [], _, _ => 0
  | (r1, r2) :: rest, last, M =>
    (if (alarmCheck alarms last r1 r2).2 = true ∧ r2 = some M then 1 else 0)
      + triggersAt alarms rest (alarmCheck alarms last r1 r2).1 M

/-- The values of the request parameters that `handleSetAlarms` keeps: name
starts with `alarm`, value passes the validity check. -/
def validParamVals (params : List (String × String)) : List String :=
  (params.filter fun q => startsWithAlarm q.1 && validToken q.2).map Prod.snd

/-- The validation predicate as the spec words it (spec, Alarm Store):
length 5, a literal colon at index 2, the hour digits reading below 24 and the
minute digits below 60.  Written from the spec for comparison with the code's
`validToken`. -/
def specValidToken (s : String) : Bool :=
  match s.data with
  | [a, b, c, d, e] =>
    a.isDigit && b.isDigit && (c == ':') && d.isDigit && e.isDigit
      && decide ((a.toNat - 48) * 10 + (b.toNat - 48) < 24)
      && decide ((d.toNat - 48) * 10 + (e.toNat - 48) < 60)
  | _ => false

/-- Lexicographic strict order on character lists, the ascending order the
spec demands of the persisted CSV. -/
def lexLt : Chars → Chars → Bool
  | [], [] => false
  | [], _ :: _ => true
  | _ :: _, [] => false
  | a :: s, b :: t => if a < b then true else if b < a then false else lexLt s t

/-- Insertion step for the spec-side sort. -/
def specInsert (a : String) : List String → List String
  | [] => [a]
  | b :: l => if lexLt a.data b.data || a == b then a :: b :: l else b :: specInsert a l

/-- Spec-side ascending sort (insertion sort over `lexLt`). -/
def specSort : List String → List String
  | [] => []
  | a :: l => specInsert a (specSort l)

/-- The round-trip value the spec claims for `load(save(L))` (spec §8,
property 2): `sort(dedupe(filter(valid, L)))[:MAX_ALARMS]`, written from the
spec's words for comparison with the code's behavior. -/
def specRoundTrip (L : List String) : List String :=
  (specSort (L.filter specValidToken).dedup).take maxAlarms

/-! ### Characterizing the save / load loops -/

theorem splitAtComma_no_comma {t : Chars} (h : ',' ∉ t) :
    splitAtComma t = (t, none) := by
  induction t with
  | nil => rfl
  | cons c cs ih =>
    have hc : ¬ c = ',' := fun hcc => h (hcc ▸ List.mem_cons_self c cs)
    have hcs : ',' ∉ cs := fun hm => h (List.mem_cons_of_mem c hm)
    simp [splitAtComma, hc, ih hcs]

theorem splitAtComma_append {t r : Chars} (h : ',' ∉ t) :
    splitAtComma (t ++ ',' :: r) = (t, some r) := by
  induction t with
  | nil => simp [splitAtComma]
  | cons c cs ih =>
    have hc : ¬ c = ',' := fun hcc => h (hcc ▸ List.mem_cons_self c cs)
    have hcs : ',' ∉ cs := fun hm => h (List.mem_cons_of_mem c hm)
    simp [splitAtComma, hc, ih hcs]

theorem loadTokens_none {s tok : Chars} (h : splitAtComma s = (tok, none))
    (acc : List Chars) : loadTokens s acc = pushValid acc tok := by
  rw [loadTokens]
  split
  next tok2 heq => rw [h] at heq; cases heq; rfl
  next tok2 r heq => rw [h] at heq; cases heq

theorem loadTokens_some {s tok r : Chars} (h : splitAtComma s = (tok, some r))
    (acc : List Chars) :
    loadTokens s acc =
      if maxAlarms ≤ (pushValid acc tok).length then pushValid acc tok
      else loadTokens r (pushValid acc tok) := by
  rw [loadTokens]
  split
  next tok2 heq => rw [h] at heq; cases heq
  next tok2 r2 heq => rw [h] at heq; cases heq; rfl

/-- The load loop on a comma-join of comma-free tokens: each token is trimmed,
the valid ones are appended in order, and collection stops at `maxAlarms`. -/
theorem loadTokens_joinChars (ts : List Chars) (acc : List Chars)
    (hc : ∀ t ∈ ts, ',' ∉ t) (hlen : acc.length < maxAlarms) :
    loadTokens (joinChars ts) acc
      = acc ++ ((ts.map trimTok).filter validTok).take (maxAlarms - acc.length) := by
  induction ts generalizing acc with
  | nil =>
    rw [show joinChars [] = [] from rfl,
        loadTokens_none (show splitAtComma [] = ([], none) from rfl)]
    simp [pushValid, trimTok, validTok, isSpaceC]
  | cons t ts' ih =>
    cases ts' with
    | nil =>
      rw [show joinChars [t] = t from rfl,
          loadTokens_none (splitAtComma_no_comma (hc t (by simp)))]
      by_cases hv : validTok (trimTok t) = true
      · rw [pushValid, if_pos hv]
        have h1 : (1 : Nat) ≤ maxAlarms - acc.length := by omega
        simp only [List.map_cons, List.map_nil, List.filter_cons, hv, List.filter_nil,
          if_true]
        rw [List.take_of_length_le (by simpa using h1)]
      · rw [pushValid, if_neg hv]
        simp [List.filter_cons, hv]
    | cons u ts'' =>
      rw [show joinChars (t :: u :: ts'') = t ++ ',' :: joinChars (u :: ts'') from rfl,
          loadTokens_some (splitAtComma_append (hc t (by simp)))]
      have hc' : ∀ x ∈ u :: ts'', ',' ∉ x := fun x hx => hc x (List.mem_cons_of_mem t hx)
      by_cases hv : validTok (trimTok t) = true
      · rw [pushValid, if_pos hv]
        simp only [List.length_append, List.length_cons, List.length_nil]
        by_cases hfull : maxAlarms ≤ acc.length + 1
        · rw [if_pos (by omega)]
          have hone : maxAlarms - acc.length = 1 := by omega
          simp only [List.map_cons, List.filter_cons, hv, hone, if_true,
            List.take_succ_cons, List.take_zero]
        · rw [if_neg (by omega), ih (acc ++ [trimTok t]) hc' (by simp; omega)]
          have hsub : maxAlarms - acc.length = (maxAlarms - (acc.length + 1)) + 1 := by omega
          simp only [List.map_cons, List.filter_cons, hv, if_true, List.length_append,
            List.length_cons, List.length_nil, hsub, List.take_succ_cons, List.append_assoc,
            List.cons_append, List.nil_append]
      · rw [pushValid, if_neg hv]
        rw [if_neg (by omega), ih acc hc' hlen]
        simp [List.filter_cons, hv]

/-- `loadAlarmsFromPrefs` applied to a CSV that is the comma-join of comma-free
tokens. -/
theorem loadAlarmsChars_joinChars (ts : List Chars) (hc : ∀ t ∈ ts, ',' ∉ t) :
    loadAlarmsChars (joinChars ts)
      = ((ts.map trimTok).filter validTok).take maxAlarms := by
  unfold loadAlarmsChars
  by_cases h0 : (joinChars ts).length = 0
  · rw [if_pos h0]
    have hnil : joinChars ts = [] := List.length_eq_zero.mp h0
    cases ts with
    | nil => simp
    | cons t ts' =>
      cases ts' with
      | nil =>
        have ht : t = [] := hnil
        simp [ht, trimTok, validTok, isSpaceC]
      | cons u ts'' =>
        exfalso
        rw [show joinChars (t :: u :: ts'') = t ++ ',' :: joinChars (u :: ts'') from rfl] at hnil
        simpa using congrArg List.length hnil
  · rw [if_neg h0, loadTokens_joinChars ts [] hc (by simp [maxAlarms])]
    simp

theorem string_mk_data (s : String) : (⟨s.data⟩ : String) = s := rfl

/-- Round trip through the store for lists whose tokens carry no comma and no
surrounding whitespace: loading right after saving gives back the first
`maxAlarms` entries filtered by the (weak) validity check.  No sorting, no
deduplication, no digit checks happen anywhere on the way. -/
theorem loadAlarms_after_save (L : List String) (p : Option String)
    (hc : ∀ s ∈ L, ',' ∉ s.data) (htr : ∀ s ∈ L, trimTok s.data = s.data) :
    loadAlarms (saveAlarmsToPrefs L p) = (L.take maxAlarms).filter validToken := by
  have hdata : (saveCsv L).data = joinChars ((L.take maxAlarms).map String.data) := by
    rw [saveCsv, saveCsvChars, List.map_take]
  rw [saveAlarmsToPrefs, loadAlarms, Option.getD_some, hdata,
      loadAlarmsChars_joinChars _ (by
        intro t ht
        obtain ⟨s, hs, rfl⟩ := List.mem_map.mp ht
        exact hc s (List.take_subset _ _ hs))]
  have hmap : (((L.take maxAlarms).map String.data).map trimTok)
      = (L.take maxAlarms).map String.data := by
    rw [List.map_map]
    apply List.map_congr_left
    intro s hs
    exact htr s (List.take_subset _ _ hs)
  rw [hmap, List.map_filter]
  have hfil : ((L.take maxAlarms).filter (validTok ∘ String.data))
      = (L.take maxAlarms).filter validToken := rfl
  rw [hfil, ← List.map_take,
      List.take_of_length_le
        (le_trans (List.length_filter_le _ _) (by simpa using List.length_take_le maxAlarms L)),
      List.map_map]
  conv_rhs => rw [← List.map_id ((L.take maxAlarms).filter validToken)]
  apply List.map_congr_left
  intro s _
  rfl

theorem collectAlarms_go (l : List (String × String)) (acc : List String)
    (hlen : acc.length < maxAlarms) :
    collectAlarms l acc = acc ++ (validParamVals l).take (maxAlarms - acc.length) := by
  induction l generalizing acc with
  | nil => simp [collectAlarms, validParamVals]
  | cons q rest ih =>
    obtain ⟨n, v⟩ := q
    by_cases h1 : startsWithAlarm n = true
    · by_cases h2 : validToken v = true
      · rw [collectAlarms, if_pos h1, if_pos h2]
        simp only [validParamVals, List.filter_cons]
        simp only [h1, h2, Bool.and_self, if_true, List.map_cons]
        by_cases hfull : maxAlarms ≤ (acc ++ [v]).length
        · rw [if_pos hfull]
          have hone : maxAlarms - acc.length = 1 := by simp at hfull; omega
          rw [hone, List.take_succ_cons, List.take_zero]
        · rw [if_neg hfull, ih (acc ++ [v]) (by simp at hfull ⊢; omega)]
          have hsub : maxAlarms - acc.length = (maxAlarms - (acc ++ [v]).length) + 1 := by
            simp at hfull ⊢; omega
          rw [hsub, List.take_succ_cons]
          simp [validParamVals]
      · rw [collectAlarms, if_pos h1, if_neg h2, ih acc hlen]
        simp [validParamVals, List.filter_cons, h2]
    · rw [collectAlarms, if_neg h1, ih acc hlen]
      simp [validParamVals, List.filter_cons, h1]

/-- `handleSetAlarms` keeps exactly the first `maxAlarms` values of
alarm-named parameters that pass the check, in request order. -/
theorem collectAlarms_eq (params : List (String × String)) :
    collectAlarms params [] = (validParamVals params).take maxAlarms := by
  rw [collectAlarms_go params [] (by simp [maxAlarms])]
  simp

theorem validToken_of_mem_validParamVals {params : List (String × String)}
    {t : String} (h : t ∈ validParamVals params) : validToken t = true := by
  obtain ⟨q, hq, rfl⟩ := List.mem_map.mp h
  have := List.of_mem_filter hq
  exact (Bool.and_eq_true _ _ |>.mp this).2

/-- What the code's validity check accepts, in closed form: any 5 characters
with a colon in the middle position; the outer characters are arbitrary. -/
theorem validTok_shape {t : Chars} :
    validTok t = true ↔ ∃ a b d e : Char, t = [a, b, ':', d, e] := by
  constructor
  · intro h
    simp only [validTok, Bool.and_eq_true, beq_iff_eq] at h
    obtain ⟨h5, hc⟩ := h
    rcases t with _ | ⟨a, _ | ⟨b, _ | ⟨c, _ | ⟨d, _ | ⟨e, _ | ⟨f, rest⟩⟩⟩⟩⟩⟩ <;>
      simp_all [List.get?]
  · rintro ⟨a, b, d, e, rfl⟩
    rfl

/-! ### The claims -/

/-- C5: a `/startTimer` request whose hours, minutes and seconds (missing
parameter = 0, negative values clamped to 0) total 0 seconds forces the timer
to not-running and answers 302 with `Location: /`; no buzzer activation can
result, since the loop's timer-expiry check never fires from the resulting
state. -/
theorem c5_zero_timer_stops (hoursArg minutesArg secondsArg : Option Int)
    (nowMs : Nat) (st : DeviceState)
    (h : totalSeconds hoursArg minutesArg secondsArg = 0) :
    (handleStartTimer hoursArg minutesArg secondsArg nowMs st).1.timerRunning = false
    ∧ (handleStartTimer hoursArg minutesArg secondsArg nowMs st).2.code = 302
    ∧ (handleStartTimer hoursArg minutesArg secondsArg nowMs st).2.location = some "/"
    ∧ ∀ n : Nat,
        (timerExpiryCheck (handleStartTimer hoursArg minutesArg secondsArg nowMs st).1 n).2
          = false := by
  unfold handleStartTimer
  simp [h, redirectHome, timerExpiryCheck]

/-- C5 witness: `GET /startTimer?hours=0&seconds=-5` (minutes absent) at
`millis() = 1000` from the boot state. -/
theorem c5_witness :
    totalSeconds (some 0) none (some (-5)) = 0
    ∧ ((handleStartTimer (some 0) none (some (-5)) 1000 initState).1.timerRunning = false
       ∧ (handleStartTimer (some 0) none (some (-5)) 1000 initState).2.code = 302
       ∧ (handleStartTimer (some 0) none (some (-5)) 1000 initState).2.location = some "/"
       ∧ ∀ n : Nat,
           (timerExpiryCheck (handleStartTimer (some 0) none (some (-5)) 1000 initState).1 n).2
             = false) :=
  ⟨by decide, c5_zero_timer_stops (some 0) none (some (-5)) 1000 initState (by decide)⟩

/-- C6 counterexample: with the timer stopped, `handleStatus` renders
`remaining` as `"0s"`, not as the claimed `"0h 0m 0s"`. -/
theorem c6_counterexample :
    remainingString false 999999 0 = "0s" ∧ ("0s" : String) ≠ "0h 0m 0s" := by
  exact ⟨rfl, by decide⟩

/-- C6 amended: `remaining` is `"0s"` whenever the timer is stopped.  When
running, the remaining milliseconds first pass through the `(long)` cast of
main.cpp:259, so only while they are below 2^31 is the field
`max(0, target - now) / 1000` split by integer division into
`<H>h <M>m <S>s` with minutes and seconds below 60 and no zero padding; for
larger remaining times (e.g. after `/startTimer?hours=600`) the cast wraps
and negative components are printed. -/
theorem c6_amended :
    (∀ timerTargetMs nowMs : Nat, remainingString false timerTargetMs nowMs = "0s")
    ∧ (∀ timerTargetMs nowMs : Nat, timerTargetMs - nowMs < 2147483648 →
        ∃ hrs mins secs : Nat,
          remainingString true timerTargetMs nowMs
            = toString hrs ++ "h " ++ toString mins ++ "m " ++ toString secs ++ "s"
          ∧ hrs * 3600 + mins * 60 + secs
              = (max ((timerTargetMs : Int) - (nowMs : Int)) 0).toNat / 1000
          ∧ mins < 60 ∧ secs < 60)
    ∧ remainingString true 2160000000 0 = "-593h -2m -47s" := by
  refine ⟨fun _ _ => rfl, ?_, by decide⟩
  intro tms nms h
  have hb : (if tms > nms then tms - nms else 0) < 2147483648 := by
    split <;> omega
  have hcast : toInt32 (if tms > nms then tms - nms else 0)
      = (((if tms > nms then tms - nms else 0) : Nat) : Int) := by
    unfold toInt32
    rw [Nat.mod_eq_of_lt (by omega), if_pos hb]
  refine ⟨(if tms > nms then tms - nms else 0) / 1000 / 3600,
          ((if tms > nms then tms - nms else 0) / 1000 % 3600) / 60,
          (if tms > nms then tms - nms else 0) / 1000 % 60, ?_, ?_, ?_, ?_⟩
  · have hrw : remainingString true tms nms
        = toString (Int.tdiv (Int.tdiv (toInt32 (if tms > nms then tms - nms else 0)) 1000) 3600)
          ++ "h "
          ++ toString (Int.tdiv
               (Int.tmod (Int.tdiv (toInt32 (if tms > nms then tms - nms else 0)) 1000) 3600) 60)
          ++ "m "
          ++ toString (Int.tmod (Int.tdiv (toInt32 (if tms > nms then tms - nms else 0)) 1000) 60)
          ++ "s" := rfl
    rw [hrw, hcast]
    rfl
  · have hm : (max ((tms : Int) - (nms : Int)) 0).toNat
        = (if tms > nms then tms - nms else 0) := by
      split <;> omega
    rw [hm]
    omega
  · omega
  · omega

/-- C6 witness: a running timer with 7201000 ms (2h 0m 1s) left, below the
32-bit bound. -/
theorem c6_witness :
    (7201000 : Nat) - 0 < 2147483648
    ∧ ∃ hrs mins secs : Nat,
        remainingString true 7201000 0
          = toString hrs ++ "h " ++ toString mins ++ "m " ++ toString secs ++ "s"
        ∧ hrs * 3600 + mins * 60 + secs
            = (max ((7201000 : Int) - ((0 : Nat) : Int)) 0).toNat / 1000
        ∧ mins < 60 ∧ secs < 60 :=
  ⟨by decide, c6_amended.2.1 7201000 0 (by decide)⟩

/-- C7 counterexample: `handleStopTimer` does stop the timer, but it leaves an
energized buzzer energized — it touches no buzzer output at all. -/
theorem c7_counterexample :
    ((handleStopTimer { initState with timerRunning := true, buzzerOn := true }).1.timerRunning
        = false)
    ∧ ((handleStopTimer { initState with timerRunning := true, buzzerOn := true }).1.buzzerOn
        = true) :=
  ⟨rfl, rfl⟩

/-- C7 amended: every `/stopTimer` request clears `timerRunning` and answers
302 to `/`; the buzzer output (and all other state) is left exactly as it
was — the handler never silences a ringing buzzer. -/
theorem c7_amended (st : DeviceState) :
    (handleStopTimer st).1.timerRunning = false
    ∧ (handleStopTimer st).1.buzzerOn = st.buzzerOn
    ∧ (handleStopTimer st).1.alarms = st.alarms
    ∧ (handleStopTimer st).1.prefsAlarmCsv = st.prefsAlarmCsv
    ∧ (handleStopTimer st).2 = redirectHome :=
  ⟨rfl, rfl, rfl, rfl, rfl⟩

/-- C7 witness: stop request arriving while the buzzer is energized. -/
theorem c7_witness :
    (handleStopTimer { initState with buzzerOn := true }).1.timerRunning = false
    ∧ (handleStopTimer { initState with buzzerOn := true }).1.buzzerOn
        = ({ initState with buzzerOn := true } : DeviceState).buzzerOn
    ∧ (handleStopTimer { initState with buzzerOn := true }).1.alarms
        = ({ initState with buzzerOn := true } : DeviceState).alarms
    ∧ (handleStopTimer { initState with buzzerOn := true }).1.prefsAlarmCsv
        = ({ initState with buzzerOn := true } : DeviceState).prefsAlarmCsv
    ∧ (handleStopTimer { initState with buzzerOn := true }).2 = redirectHome :=
  c7_amended { initState with buzzerOn := true }

/-- C8 counterexample: a `/setAlarms` request in which every parameter fails
validation saves an empty list, and the save writes the key with an
empty-string value instead of removing it. -/
theorem c8_counterexample :
    (handleSetAlarms [("alarm0", "7:30")] initState).1.alarms = []
    ∧ (handleSetAlarms [("alarm0", "7:30")] initState).1.prefsAlarmCsv = some ""
    ∧ some ("" : String) ≠ (none : Option String) := by
  refine ⟨rfl, rfl, by decide⟩

/-- C8 amended: when a `/setAlarms` request keeps no parameter, the key stays
present with the empty-string value (loading which gives the empty list);
only `/clearAlarms` removes the key. -/
theorem c8_amended (params : List (String × String)) (st : DeviceState)
    (h : validParamVals params = []) :
    (handleSetAlarms params st).1.alarms = []
    ∧ (handleSetAlarms params st).1.prefsAlarmCsv = some ""
    ∧ loadAlarms (some "") = []
    ∧ ∀ st2 : DeviceState, (handleClearAlarms st2).1.prefsAlarmCsv = none := by
  have halarm : collectAlarms params [] = [] := by
    rw [collectAlarms_eq, h]
    rfl
  refine ⟨?_, ?_, rfl, fun _ => rfl⟩
  · simp [handleSetAlarms, halarm]
  · simp [handleSetAlarms, halarm, saveAlarmsToPrefs, saveCsv, saveCsvChars, joinChars]

/-- C8 witness: a request whose single parameter value has the wrong length. -/
theorem c8_witness :
    validParamVals [("alarm0", "99:99x")] = []
    ∧ ((handleSetAlarms [("alarm0", "99:99x")] initState).1.alarms = []
       ∧ (handleSetAlarms [("alarm0", "99:99x")] initState).1.prefsAlarmCsv = some ""
       ∧ loadAlarms (some "") = []
       ∧ ∀ st2 : DeviceState, (handleClearAlarms st2).1.prefsAlarmCsv = none) :=
  ⟨by decide, c8_amended [("alarm0", "99:99x")] initState (by decide)⟩

/-- C1 counterexample: the request
`/setAlarms?alarm0=12:00&alarm1=07:30&alarm2=07:30` persists the CSV
`"12:00,07:30,07:30"` — its first token is not below its second in the
ascending order and the duplicate `07:30` survives, so the persisted CSV is
neither sorted nor deduplicated. -/
theorem c1_counterexample :
    (handleSetAlarms [("alarm0", "12:00"), ("alarm1", "07:30"), ("alarm2", "07:30")]
        initState).1.prefsAlarmCsv = some "12:00,07:30,07:30"
    ∧ (handleSetAlarms [("alarm0", "12:00"), ("alarm1", "07:30"), ("alarm2", "07:30")]
        initState).1.alarms = ["12:00", "07:30", "07:30"]
    ∧ lexLt "12:00".data "07:30".data = false
    ∧ (["12:00", "07:30", "07:30"] : List String).count "07:30" = 2 := by
  decide

/-- C1 amended: a save writes the first `maxAlarms` entries of the RAM list
comma-joined in RAM order (no sorting, no deduplication); after any
`/setAlarms` request the persisted CSV is the comma-join of the request's
alarm-named parameter values that pass the weak check (length 5, colon at
index 2 — not necessarily valid clock times), in request order, truncated to
`maxAlarms`. -/
theorem c1_amended (params : List (String × String)) (st : DeviceState) :
    (handleSetAlarms params st).1.alarms = (validParamVals params).take maxAlarms
    ∧ (handleSetAlarms params st).1.prefsAlarmCsv
        = some (saveCsv ((validParamVals params).take maxAlarms))
    ∧ ∀ t ∈ (handleSetAlarms params st).1.alarms, validToken t = true := by
  refine ⟨by simp [handleSetAlarms, collectAlarms_eq],
          by simp [handleSetAlarms, saveAlarmsToPrefs, collectAlarms_eq], ?_⟩
  intro t ht
  simp only [handleSetAlarms, collectAlarms_eq] at ht
  exact validToken_of_mem_validParamVals (List.take_subset _ _ ht)

/-- C2 counterexample: the code's check has no digit or range test, so
`25:00` is accepted, and the request
`/setAlarms?alarm0=12:00&alarm1=07:30&alarm2=07:30&alarm3=25:00` persists
`"12:00,07:30,07:30,25:00"`, not the claimed `"07:30,12:00"`. -/
theorem c2_counterexample :
    validToken "25:00" = true
    ∧ (handleSetAlarms
         [("alarm0", "12:00"), ("alarm1", "07:30"), ("alarm2", "07:30"), ("alarm3", "25:00")]
         initState).1.prefsAlarmCsv = some "12:00,07:30,07:30,25:00"
    ∧ some ("12:00,07:30,07:30,25:00" : String) ≠ some ("07:30,12:00" : String) := by
  decide

/-- C2 amended: a token is accepted by the code's validation exactly when it
is any 5 characters with a colon at index 2 — hour and minute digits are never
inspected (at load the same check runs on the trimmed token); in particular
the request of the claim keeps `25:00` and persists
`"12:00,07:30,07:30,25:00"` with no dedup and no sorting. -/
theorem c2_amended :
    (∀ s : String, validToken s = true ↔ ∃ a b d e : Char, s.data = [a, b, ':', d, e])
    ∧ (handleSetAlarms
         [("alarm0", "12:00"), ("alarm1", "07:30"), ("alarm2", "07:30"), ("alarm3", "25:00")]
         initState).1.prefsAlarmCsv = some "12:00,07:30,07:30,25:00" := by
  refine ⟨fun s => validTok_shape, by decide⟩

/-- C3 counterexample: for `L = ["12:00", "07:30", "07:30"]`,
`load(save(L))` returns `L` itself (order and duplicate preserved), while the
spec's `sort(dedupe(filter(valid, L)))[:20]` is `["07:30", "12:00"]`. -/
theorem c3_counterexample :
    loadAlarms (saveAlarmsToPrefs ["12:00", "07:30", "07:30"] none)
      ≠ specRoundTrip ["12:00", "07:30", "07:30"] := by
  rw [loadAlarms_after_save _ _ (by decide) (by decide)]
  decide

/-- C3 amended: for any list of comma-free, whitespace-free tokens,
`load(save(L))` equals the first `maxAlarms` entries of `L` filtered by the
weak check (length 5, colon at index 2) — no sorting, no deduplication, no
digit-range filtering take place. -/
theorem c3_amended (L : List String) (p : Option String)
    (hc : ∀ s ∈ L, ',' ∉ s.data) (htr : ∀ s ∈ L, trimTok s.data = s.data) :
    loadAlarms (saveAlarmsToPrefs L p) = (L.take maxAlarms).filter validToken :=
  loadAlarms_after_save L p hc htr

/-- C3 witness: the round trip evaluated on `["12:00", "07:30", "07:30"]`. -/
theorem c3_witness :
    (∀ s ∈ (["12:00", "07:30", "07:30"] : List String), ',' ∉ s.data)
    ∧ (∀ s ∈ (["12:00", "07:30", "07:30"] : List String), trimTok s.data = s.data)
    ∧ loadAlarms (saveAlarmsToPrefs ["12:00", "07:30", "07:30"] none)
        = ((["12:00", "07:30", "07:30"] : List String).take maxAlarms).filter validToken :=
  ⟨by decide, by decide, c3_amended ["12:00", "07:30", "07:30"] none (by decide) (by decide)⟩

/-- C4: the claim fails on the code.  `loop()` reads the clock twice per
minute tick — once for the minute comparison (main.cpp:443) and once inside
`getCurrentHHMM` (main.cpp:447).  If the wall clock crosses a minute boundary
between the two reads, the alarm list is scanned and matched twice for the
same wall-clock minute: here minute 495 (= 08:15) is matched in the iteration
whose first read still saw 494 (08:14) and again in the next iteration, so
the buzzer is activated twice for minute 495 in one run. -/
theorem c4_double_trigger :
    triggersAt ["08:15"] [(some 494, some 495), (some 495, some 495)] (-1) 495 = 2
    ∧ hhmmOf 495 = "08:15" := by
  decide

/-- C9 counterexample: swapping the two parameters of a `/setAlarms` request
permutes the request multi-map but changes both the final RAM list order and
the persisted CSV. -/
theorem c9_counterexample :
    ([("alarm0", "12:00"), ("alarm1", "07:30")] : List (String × String)).Perm
        [("alarm1", "07:30"), ("alarm0", "12:00")]
    ∧ (handleSetAlarms [("alarm0", "12:00"), ("alarm1", "07:30")] initState).1.prefsAlarmCsv
        = some "12:00,07:30"
    ∧ (handleSetAlarms [("alarm1", "07:30"), ("alarm0", "12:00")] initState).1.prefsAlarmCsv
        = some "07:30,12:00"
    ∧ some ("12:00,07:30" : String) ≠ some ("07:30,12:00" : String) :=
  ⟨List.Perm.swap _ _ _, by decide, by decide, by decide⟩

/-- C9 amended: permuting the request parameters yields the same final alarm
multiset (the RAM lists are permutations of each other) whenever at most
`maxAlarms` parameters pass the filter; the order — and hence the persisted
CSV string — follows the request's parameter order and may differ. -/
theorem c9_amended (P Q : List (String × String)) (st1 st2 : DeviceState)
    (hperm : P.Perm Q) (hle : (validParamVals P).length ≤ maxAlarms) :
    ((handleSetAlarms P st1).1.alarms).Perm ((handleSetAlarms Q st2).1.alarms) := by
  simp only [handleSetAlarms, collectAlarms_eq]
  have hpv : (validParamVals P).Perm (validParamVals Q) := by
    unfold validParamVals
    exact (hperm.filter _).map _
  have hleQ : (validParamVals Q).length ≤ maxAlarms := hpv.length_eq ▸ hle
  rw [List.take_of_length_le hle, List.take_of_length_le hleQ]
  exact hpv

/-- C9 witness: the swapped two-parameter request. -/
theorem c9_witness :
    (validParamVals [("alarm0", "12:00"), ("alarm1", "07:30")]).length ≤ maxAlarms
    ∧ ((handleSetAlarms [("alarm0", "12:00"), ("alarm1", "07:30")] initState).1.alarms).Perm
        ((handleSetAlarms [("alarm1", "07:30"), ("alarm0", "12:00")] initState).1.alarms) :=
  ⟨by decide,
   c9_amended _ _ initState initState (List.Perm.swap _ _ _) (by decide)⟩

/-- C10: at load every comma-separated token is trimmed of surrounding
whitespace before the 5-character check, so for any comma-free token list the
loaded alarms are the trimmed tokens that pass the check, and the persisted
blob `" 07:30 ,12:00"` loads as `["07:30", "12:00"]`; whitespace around commas
never drops an otherwise-valid token. -/
theorem c10_trim_before_validate :
    (∀ ts : List Chars, (∀ t ∈ ts, ',' ∉ t) →
        loadAlarmsChars (joinChars ts) = ((ts.map trimTok).filter validTok).take maxAlarms)
    ∧ loadAlarms (some " 07:30 ,12:00") = ["07:30", "12:00"] := by
  refine ⟨loadAlarmsChars_joinChars, ?_⟩
  have hj : (" 07:30 ,12:00" : String).data = joinChars [" 07:30 ".data, "12:00".data] := by
    decide
  rw [loadAlarms, Option.getD_some, hj, loadAlarmsChars_joinChars _ (by decide)]
  decide

/-- C10 witness: the universal part applied to the tokens of the concrete
blob. -/
theorem c10_witness :
    (∀ t ∈ [(" 07:30 " : String).data, ("12:00" : String).data], ',' ∉ t)
    ∧ loadAlarmsChars (joinChars [(" 07:30 " : String).data, ("12:00" : String).data])
        = ((([(" 07:30 " : String).data, ("12:00" : String).data]).map trimTok).filter
            validTok).take maxAlarms :=
  ⟨by decide, c10_trim_before_validate.1 _ (by decide)⟩

end KTC
